import Mathlib

/-!
Shallow embedding of the WebSocket ↔ NATS meeting relay
(`src/unnamed/part_000`, with `src/main.js` a strict subset lacking the
`toggle-device` and `end-meeting` cases).

Modelling conventions:
* A WebSocket connection is identified by a `Nat` id; its per-connection
  state (`clientChannel`, `clientUid`, the `ws.natsSub` handle and the
  transport's open/closed readyState) is the `Conn` structure.
* The MySQL store is modelled as two in-memory tables: `chat_messages`
  (AUTO_INCREMENT id supplied by `nextId`) and `meeting_participants`.
  Two clocks are passed to the handler: `now` is the handler-side
  `new Date()` and `dbNow` is the store's own clock that fills the
  `created_at` column default at INSERT; the source never reads the
  stored `created_at` back, so the record it publishes after an insert
  carries `now`, not the persisted `dbNow`.  SQL `UPDATE ... WHERE`
  updates every matching row and inserts nothing; `DELETE ... WHERE`
  removes every matching row.
* JS string truthiness matters twice: `msg.limit || 50` (`effLimit`) and
  the `clientChannel &&` guard of the close handler, which skips
  membership removal when the joined channel name is the empty string.
* A NATS subscription is a triple `(subId, topic, connId)`; the forwarding
  task started at `join` delivers a payload published on `topic` to
  `connId` exactly when the subscription is live and the connection's
  readyState is OPEN (`receivesB`).
* `nc.publish` calls made synchronously by a handler are collected in
  `publishes`; the one publish made inside `setTimeout(..., 100)` in the
  `toggle-device` case is collected in `delayed`, which is emitted strictly
  after every element of `publishes`.  `ws.send` replies to the dispatching
  connection are collected in `replies`.
* `JSON.parse` is external; `onMessage` consumes its result as
  `Except String ControlMessage`, the `.error` case being the `catch`
  branch of the handler (which replies `{action:'error', message}`).
-/

/-- A row of the `chat_messages` table. -/
structure ChatRow where
  id : Nat
  channel_name : String
  uid : String
  username : String
  message : String
  created_at : Nat
deriving DecidableEq, Repr

/-- A row of the `meeting_participants` table. -/
structure PartRow where
  channel_name : String
  uid : String
  is_camera_off : Bool
  is_muted : Bool
deriving DecidableEq, Repr

/-- Parsed inbound control messages, one variant per `case` of the
`switch (action)` in `ws.on('message')`. -/
inductive ControlMessage where
  | join (channelName uid : String)
  | getMessages (channelName : String) (lim : Option Nat)
  | sendMessage (channelName uid username message : String)
  | updateStatus (channelName uid : String) (isCameraOff isMuted : Bool)
  | deleteMessage (channelName : String) (messageId : Nat)
  | toggleDevice (channelName device : String) (state : Bool) (targetUid : String)
  | endMeeting (channelName uid : String) (username : Option String)
deriving DecidableEq, Repr

/-- Outbound events (`action` + payload) written to a transport or
published on a NATS topic. -/
inductive Event where
  | joined (channelName : String)
  | messages (channelName : String) (data : List ChatRow)
  | newMessage (channelName : String) (data : ChatRow)
  | participantStatusChanged (channelName uid : String)
      (isCameraOff isMuted : Option Bool)
  | messageDeleted (channelName : String) (messageId : Nat)
  | deviceToggled (channelName targetUid device : String) (state : Bool)
  | meetingEnded (channelName endedBy : String)
  | errorEv (message : String)
deriving DecidableEq, Repr

/-- Per-connection state: the closure variables `clientChannel` and
`clientUid`, the `ws.natsSub` handle, and the transport readyState. -/
structure Conn where
  clientChannel : Option String
  clientUid : Option String
  natsSub : Option Nat
  isOpen : Bool
deriving DecidableEq, Repr

/-- Server-wide state: the `channels` Map (channelName → Set of connection
ids), the two store tables with the store's id counter, and the set of
live NATS subscriptions with the broker's subscription-id counter. -/
structure ServerState where
  channels : List (String × List Nat)
  chat_messages : List ChatRow
  meeting_participants : List PartRow
  subs : List (Nat × String × Nat)
  nextId : Nat
  nextSubId : Nat
deriving DecidableEq, Repr

/-- Everything one invocation of a handler produces. -/
structure HandlerResult where
  server : ServerState
  conn : Conn
  replies : List Event
  publishes : List (String × Event)
  delayed : List (String × Event)
deriving DecidableEq, Repr

/-- Topic derivation: `` `meeting.${channelName}` ``. -/
def mtopic (channelName : String) : String := "meeting." ++ channelName

/-- First entry of the `channels` Map for a given channel name. -/
def lookupCh : List (String × List Nat) → String → Option (List Nat)
  | [], _ => none
  | e :: es, c => if e.1 = c then some e.2 else lookupCh es c

/-- `channels.get(c).add(ws)` preceded by
`if (!channels.has(c)) channels.set(c, new Set())`. -/
def addToCh : List (String × List Nat) → String → Nat → List (String × List Nat)
  | [], c, k => [(c, [k])]
  | e :: es, c, k =>
    if e.1 = c then (e.1, if k ∈ e.2 then e.2 else e.2 ++ [k]) :: es
    else e :: addToCh es c k

/-- `channels.get(c).delete(ws)` (no effect when the channel has no entry,
matching the `channels.has(clientChannel)` guard). -/
def removeFromCh : List (String × List Nat) → String → Nat → List (String × List Nat)
  | [], _, _ => []
  | e :: es, c, k =>
    if e.1 = c then (e.1, e.2.filter (fun j => j ≠ k)) :: es
    else e :: removeFromCh es c k

/-- The member set of channel `c` (empty when the Map has no entry). -/
def members (s : ServerState) (c : String) : List Nat :=
  (lookupCh s.channels c).getD []

/-- `msg.limit || 50`: an absent or zero (falsy) limit becomes 50. -/
def effLimit : Option Nat → Nat
  | none => 50
  | some n => if n = 0 then 50 else n

/-- `created_at` comparison used by `ORDER BY created_at DESC`:
`createdGE a b` says `a` was created no earlier than `b`. -/
def createdGE (a b : ChatRow) : Prop := b.created_at ≤ a.created_at

instance : DecidableRel createdGE := fun a b =>
  inferInstanceAs (Decidable (b.created_at ≤ a.created_at))

instance : IsTotal ChatRow createdGE :=
  ⟨fun a b => (Nat.le_total b.created_at a.created_at)⟩

instance : IsTrans ChatRow createdGE :=
  ⟨fun _ _ _ hab hbc => Nat.le_trans hbc hab⟩

/-- `WHERE channel_name = c` on `chat_messages`. -/
def channelRows (s : ServerState) (c : String) : List ChatRow :=
  s.chat_messages.filter (fun r => r.channel_name == c)

/-- `ORDER BY created_at DESC`. -/
def sortDesc (l : List ChatRow) : List ChatRow :=
  List.insertionSort createdGE l

/-- `SELECT * FROM chat_messages WHERE channel_name = c
ORDER BY created_at DESC LIMIT n`. -/
def queryRows (s : ServerState) (c : String) (n : Nat) : List ChatRow :=
  (sortDesc (channelRows s c)).take n

/-- One step of the `switch (action)` dispatch, given the parsed message,
the current server and connection state, the connection id `k`, the
handler-side clock `now` (`new Date()`) and the store-side clock `dbNow`
(the `created_at` column default applied by the database at INSERT). -/
def handleMessage (m : ControlMessage) (s : ServerState) (conn : Conn)
    (k : Nat) (now dbNow : Nat) : HandlerResult :=
  match m with
  | .join channelName uid =>
      { server :=
          { s with
            channels := addToCh s.channels channelName k,
            subs := s.subs ++ [(s.nextSubId, mtopic channelName, k)],
            nextSubId := s.nextSubId + 1 },
        conn :=
          { conn with
            clientChannel := some channelName,
            clientUid := some uid,
            natsSub := some s.nextSubId },
        replies := [.joined channelName],
        publishes := [], delayed := [] }
  | .getMessages channelName lim =>
      { server := s, conn := conn,
        replies := [.messages channelName (queryRows s channelName (effLimit lim))],
        publishes := [], delayed := [] }
  | .sendMessage channelName uid username message =>
      let row : ChatRow :=
        { id := s.nextId, channel_name := channelName, uid := uid,
          username := username, message := message, created_at := dbNow }
      let newMsg : ChatRow :=
        { id := s.nextId, channel_name := channelName, uid := uid,
          username := username, message := message, created_at := now }
      { server :=
          { s with
            chat_messages := s.chat_messages ++ [row],
            nextId := s.nextId + 1 },
        conn := conn, replies := [],
        publishes := [(mtopic channelName, .newMessage channelName newMsg)],
        delayed := [] }
  | .updateStatus channelName uid isCameraOff isMuted =>
      { server :=
          { s with
            meeting_participants := s.meeting_participants.map (fun p =>
              if p.channel_name == channelName && p.uid == uid then
                { p with is_camera_off := isCameraOff, is_muted := isMuted }
              else p) },
        conn := conn, replies := [],
        publishes := [(mtopic channelName,
          .participantStatusChanged channelName uid (some isCameraOff) (some isMuted))],
        delayed := [] }
  | .deleteMessage channelName messageId =>
      { server :=
          { s with
            chat_messages := s.chat_messages.filter (fun r =>
              !(r.id == messageId && r.channel_name == channelName)) },
        conn := conn, replies := [],
        publishes := [(mtopic channelName, .messageDeleted channelName messageId)],
        delayed := [] }
  | .toggleDevice channelName device state targetUid =>
      let parts :=
        if device == "camera" then
          s.meeting_participants.map (fun p =>
            if p.channel_name == channelName && p.uid == targetUid then
              { p with is_camera_off := !state }
            else p)
        else if device == "mic" then
          s.meeting_participants.map (fun p =>
            if p.channel_name == channelName && p.uid == targetUid then
              { p with is_muted := !state }
            else p)
        else s.meeting_participants
      { server := { s with meeting_participants := parts },
        conn := conn, replies := [],
        publishes := [(mtopic channelName,
          .deviceToggled channelName targetUid device state)],
        delayed := [(mtopic channelName,
          .participantStatusChanged channelName targetUid
            (if device == "camera" then some (!state) else none)
            (if device == "mic" then some (!state) else none))] }
  | .endMeeting channelName _ username =>
      { server := s, conn := conn, replies := [],
        publishes := [(mtopic channelName,
          .meetingEnded channelName (username.getD "Host"))],
        delayed := [] }

/-- `ws.on('message')`: the try branch dispatches the parsed message; the
catch branch replies with `{action:'error', message: err.message}` and
touches nothing else. -/
def onMessage (parsed : Except String ControlMessage) (s : ServerState)
    (conn : Conn) (k : Nat) (now dbNow : Nat) : HandlerResult :=
  match parsed with
  | .error e =>
      { server := s, conn := conn, replies := [.errorEv e],
        publishes := [], delayed := [] }
  | .ok m => handleMessage m s conn k now dbNow

/-- First statement of `ws.on('close')`:
`if (clientChannel && channels.has(clientChannel))
   channels.get(clientChannel).delete(ws)`.
`clientChannel` is truthy exactly when it is a non-null, non-empty
string, so a connection whose joined channel name is `""` skips the
membership removal. -/
def closeMembership (s : ServerState) (conn : Conn) (k : Nat) : ServerState :=
  match conn.clientChannel with
  | some c =>
      if c ≠ "" ∧ (lookupCh s.channels c).isSome then
        { s with channels := removeFromCh s.channels c k }
      else s
  | none => s

/-- Second statement of `ws.on('close')`:
`if (ws.natsSub) ws.natsSub.unsubscribe()`. -/
def closeUnsub (s : ServerState) (conn : Conn) : ServerState :=
  match conn.natsSub with
  | some sid => { s with subs := s.subs.filter (fun x => x.1 ≠ sid) }
  | none => s

/-- `ws.on('close')`: membership removal, then subscription release, then
the transport is closed for good. -/
def onClose (s : ServerState) (conn : Conn) (k : Nat) : ServerState × Conn :=
  (closeUnsub (closeMembership s conn k) conn, { conn with isOpen := false })

/-- Whether a payload published on `topic` is forwarded to connection `k`
whose readyState-is-OPEN bit is `isOp`: some live subscription on `topic`
belongs to `k` and the forwarding loop's
`ws.readyState === WebSocket.OPEN` guard passes. -/
def receivesB (s : ServerState) (k : Nat) (isOp : Bool) (topic : String) : Bool :=
  isOp && s.subs.any (fun x => x.2.1 == topic && x.2.2 == k)

/-- The §3 invariant tying membership to subscriptions: every open member
of a channel entry holds a live subscription on that channel's topic. -/
def WFInv (s : ServerState) (conns : List (Nat × Conn)) : Prop :=
  ∀ e ∈ s.channels, ∀ k ∈ e.2, ∀ p ∈ conns, p.1 = k → p.2.isOpen = true →
    ∃ x ∈ s.subs, x.2.1 = mtopic e.1 ∧ x.2.2 = k

/-- First lookup of the `meeting_participants` table by its
`(channel_name, uid)` key. -/
def lookupPart : List PartRow → String → String → Option PartRow
  | [], _, _ => none
  | p :: ps, c, u =>
    if p.channel_name = c ∧ p.uid = u then some p else lookupPart ps c u

/-- The actions whose handlers touch the store or publish: every dispatch
case except `join`. -/
def isStoreAction : ControlMessage → Bool
  | .join .. => false
  | _ => true

/-- The channel name carried by a control message. -/
def chanOf : ControlMessage → String
  | .join c _ => c
  | .getMessages c _ => c
  | .sendMessage c _ _ _ => c
  | .updateStatus c _ _ _ => c
  | .deleteMessage c _ => c
  | .toggleDevice c _ _ _ => c
  | .endMeeting c _ _ => c

/-- A connection that has never joined any channel. -/
def neverJoined : Conn :=
  { clientChannel := none, clientUid := none, natsSub := none, isOpen := true }

/-- Concrete state for the C1 witness. -/
def sC1 : ServerState :=
  { channels := [("room1", [7])], chat_messages := [],
    meeting_participants := [], subs := [(3, "meeting.room1", 7)],
    nextId := 1, nextSubId := 4 }

/-- Concrete connection for the C1 witness. -/
def cC1 : Conn :=
  { clientChannel := some "room1", clientUid := some "u1",
    natsSub := some 3, isOpen := true }

/-- State reached by a `join` with `channelName: ""`: connection 7 sits in
the member set of the channel named `""` with a live subscription. -/
def sEmpty : ServerState :=
  { channels := [("", [7])], chat_messages := [],
    meeting_participants := [], subs := [(3, mtopic "", 7)],
    nextId := 1, nextSubId := 4 }

/-- The connection of `sEmpty`: its `clientChannel` is the falsy `""`. -/
def cEmpty : Conn :=
  { clientChannel := some "", clientUid := some "u1",
    natsSub := some 3, isOpen := true }

/-- Empty initial server state (`channels = new Map()`, empty tables,
AUTO_INCREMENT starting at 1). -/
def s0 : ServerState :=
  { channels := [], chat_messages := [], meeting_participants := [],
    subs := [], nextId := 1, nextSubId := 0 }

/-- Concrete state for the C5 witness: one participant record in `room1`. -/
def sC5 : ServerState :=
  { channels := [], chat_messages := [],
    meeting_participants :=
      [{ channel_name := "room1", uid := "u2",
         is_camera_off := false, is_muted := true }],
    subs := [], nextId := 1, nextSubId := 0 }

instance (s : ServerState) (conns : List (Nat × Conn)) :
    Decidable (WFInv s conns) := by
  unfold WFInv
  infer_instance

/-! ### Lemmas about the channels Map -/

theorem lookupCh_addToCh_ne (chs : List (String × List Nat)) (c c' : String)
    (k : Nat) (h : c' ≠ c) :
    lookupCh (addToCh chs c k) c' = lookupCh chs c' := by
  have hcc : ¬ (c = c') := fun hn => h hn.symm
  induction chs with
  | nil => simp [addToCh, lookupCh, hcc]
  | cons e es ih =>
    by_cases he : e.1 = c
    · simp [addToCh, he, lookupCh, hcc]
    · simp [addToCh, he, lookupCh, ih]

theorem mem_lookupCh_addToCh_self (chs : List (String × List Nat))
    (c : String) (k : Nat) :
    k ∈ (lookupCh (addToCh chs c k) c).getD [] := by
  induction chs with
  | nil => simp [addToCh, lookupCh]
  | cons e es ih =>
    by_cases he : e.1 = c
    · by_cases hk : k ∈ e.2 <;> simp [addToCh, he, lookupCh, hk]
    · simp [addToCh, he, lookupCh, ih]

theorem mem_lookupCh_addToCh_mono (chs : List (String × List Nat))
    (c c' : String) (k j : Nat) :
    j ∈ (lookupCh chs c').getD [] →
      j ∈ (lookupCh (addToCh chs c k) c').getD [] := by
  induction chs with
  | nil =>
    intro hj
    simp [lookupCh] at hj
  | cons e es ih =>
    intro hj
    by_cases he : e.1 = c
    · by_cases hc' : e.1 = c'
      · simp [lookupCh, hc'] at hj
        have hcc' : c = c' := he ▸ hc'
        by_cases hk : k ∈ e.2 <;>
          simp [addToCh, he, lookupCh, hcc', hj, hk]
      · simp [lookupCh, hc'] at hj
        have hcc' : ¬ (c = c') := fun hn => hc' (he.trans hn)
        simp [addToCh, he, lookupCh, hcc', hj]
    · by_cases hc' : e.1 = c'
      · simp [lookupCh, hc'] at hj
        have hcc : ¬ (c' = c) := fun hn => he (hc'.trans hn)
        simp [addToCh, he, lookupCh, hc', hcc, hj]
      · simp [lookupCh, hc'] at hj
        simp [addToCh, he, lookupCh, hc']
        exact ih hj

theorem lookupCh_removeFromCh (chs : List (String × List Nat))
    (c : String) (k : Nat) :
    lookupCh (removeFromCh chs c k) c
      = (lookupCh chs c).map (fun l => l.filter (fun j => j ≠ k)) := by
  induction chs with
  | nil => simp [removeFromCh, lookupCh]
  | cons e es ih =>
    by_cases he : e.1 = c
    · simp [removeFromCh, he, lookupCh]
    · simp [removeFromCh, he, lookupCh, ih]

theorem not_mem_filter_ne_self (l : List Nat) (k : Nat) :
    k ∉ l.filter (fun j => j ≠ k) := by
  intro h
  have := List.of_mem_filter h
  simp at this

theorem lookupCh_mem (chs : List (String × List Nat)) (c : String)
    (l : List Nat) (h : lookupCh chs c = some l) : (c, l) ∈ chs := by
  induction chs with
  | nil => simp [lookupCh] at h
  | cons e es ih =>
    obtain ⟨a, b⟩ := e
    by_cases he : a = c
    · simp only [lookupCh] at h
      rw [if_pos he] at h
      simp only [Option.some.injEq] at h
      subst h
      subst he
      exact List.mem_cons_self _ _
    · simp only [lookupCh] at h
      rw [if_neg he] at h
      exact List.mem_cons_of_mem _ (ih h)

theorem channels_closeUnsub (s : ServerState) (conn : Conn) :
    (closeUnsub s conn).channels = s.channels := by
  cases h : conn.natsSub <;> simp [closeUnsub, h]

theorem not_mem_members_closeMembership (s : ServerState) (conn : Conn)
    (k : Nat) (X : String) (hX : conn.clientChannel = some X)
    (hne : X ≠ "") :
    k ∉ (lookupCh (closeMembership s conn k).channels X).getD [] := by
  simp only [closeMembership, hX]
  cases hl : lookupCh s.channels X with
  | none => simp [hl]
  | some l =>
    rw [if_pos ⟨hne, by rfl⟩]
    show k ∉ (lookupCh (removeFromCh s.channels X k) X).getD []
    rw [lookupCh_removeFromCh, hl]
    simpa using not_mem_filter_ne_self l k

/-! ### Claim C1 : cleanup on close -/

/-- C1 (amended): when a connection closes while associated with a channel
`X` whose name is non-empty (JS-truthy, so the close handler's
`clientChannel &&` guard passes), the handler removes it from `X`'s
membership set and then releases its subscription, in that order;
afterwards `X`'s membership set does not contain the connection, no broker
payload is forwarded to it any more, and the subscription handle it held
is no longer live.  For `X = ""` the guard makes the handler skip the
membership removal (see the counterexample). -/
theorem close_cleans_up (s : ServerState) (conn : Conn) (k : Nat) (X : String)
    (hX : conn.clientChannel = some X) (hne : X ≠ "") :
    (onClose s conn k).1 = closeUnsub (closeMembership s conn k) conn
    ∧ (onClose s conn k).2.isOpen = false
    ∧ k ∉ members (onClose s conn k).1 X
    ∧ (∀ t, receivesB (onClose s conn k).1 k (onClose s conn k).2.isOpen t = false)
    ∧ (∀ sid, conn.natsSub = some sid →
        ∀ x ∈ (onClose s conn k).1.subs, x.1 ≠ sid) := by
  refine ⟨rfl, rfl, ?_, ?_, ?_⟩
  · have hch : (onClose s conn k).1.channels
        = (closeMembership s conn k).channels := channels_closeUnsub _ _
    unfold members
    rw [hch]
    exact not_mem_members_closeMembership s conn k X hX hne
  · intro t
    simp [onClose, receivesB]
  · intro sid hsid x hx
    simp only [onClose, closeUnsub, hsid] at hx
    simpa using (List.mem_filter.mp hx).2

theorem close_cleans_up_witness :
    (cC1.clientChannel = some "room1" ∧ ("room1" : String) ≠ "")
    ∧ ((onClose sC1 cC1 7).1 = closeUnsub (closeMembership sC1 cC1 7) cC1
      ∧ (onClose sC1 cC1 7).2.isOpen = false
      ∧ 7 ∉ members (onClose sC1 cC1 7).1 "room1"
      ∧ (∀ t, receivesB (onClose sC1 cC1 7).1 7 (onClose sC1 cC1 7).2.isOpen t
          = false)
      ∧ (∀ sid, cC1.natsSub = some sid →
          ∀ x ∈ (onClose sC1 cC1 7).1.subs, x.1 ≠ sid)) :=
  ⟨⟨rfl, by decide⟩, close_cleans_up sC1 cC1 7 "room1" rfl (by decide)⟩

/-- C1 (counterexample): a connection that joined the channel named `""`
(reachable: a `join` with `channelName: ""` sets `clientChannel = ""` and
adds the socket to `""`'s member set) is *not* removed from that set on
close — `""` is falsy, so `if (clientChannel && ...)` skips the removal —
refuting the original claim's "X's membership set does not contain the
connection" for channel `X = ""`. -/
theorem close_empty_channel_cex :
    cEmpty.clientChannel = some ""
    ∧ 7 ∈ members sEmpty ""
    ∧ 7 ∈ members (onClose sEmpty cEmpty 7).1 "" := by decide

/-! ### Claim C6 : a second join accumulates -/

/-- C6: a connection already joined to `c1` that processes a second `join`
for `c2` gains membership in `c2` and a fresh subscription without losing
its `c1` membership or its `c1` subscription; both subscriptions stay
live, and only the newer handle is retained in `natsSub`. -/
theorem second_join_accumulates (s : ServerState) (conn : Conn)
    (k now dbNow : Nat) (c1 c2 u : String) (sid1 : Nat)
    (hch : conn.clientChannel = some c1)
    (hsub : conn.natsSub = some sid1)
    (hlive : (sid1, mtopic c1, k) ∈ s.subs)
    (hmem : k ∈ members s c1)
    (hfresh : sid1 < s.nextSubId) :
    k ∈ members (handleMessage (.join c2 u) s conn k now dbNow).server c1
    ∧ k ∈ members (handleMessage (.join c2 u) s conn k now dbNow).server c2
    ∧ (sid1, mtopic c1, k) ∈ (handleMessage (.join c2 u) s conn k now dbNow).server.subs
    ∧ (s.nextSubId, mtopic c2, k)
        ∈ (handleMessage (.join c2 u) s conn k now dbNow).server.subs
    ∧ (handleMessage (.join c2 u) s conn k now dbNow).conn.natsSub = some s.nextSubId
    ∧ (handleMessage (.join c2 u) s conn k now dbNow).conn.natsSub ≠ some sid1
    ∧ (handleMessage (.join c2 u) s conn k now dbNow).conn.clientChannel = some c2 := by
  refine ⟨?_, ?_, ?_, ?_, rfl, ?_, rfl⟩
  · exact mem_lookupCh_addToCh_mono s.channels c2 c1 k k hmem
  · exact mem_lookupCh_addToCh_self s.channels c2 k
  · exact List.mem_append_left _ hlive
  · exact List.mem_append_right _ (List.mem_singleton.mpr rfl)
  · simp only [handleMessage, ne_eq, Option.some.injEq]
    exact fun hn => Nat.lt_irrefl _ (hn ▸ hfresh)

/-- Concrete state for the C6 witness: connection 7 is joined to
`room1` with subscription 3. -/
theorem second_join_accumulates_witness :
    (cC1.clientChannel = some "room1" ∧ cC1.natsSub = some 3
      ∧ (3, mtopic "room1", 7) ∈ sC1.subs ∧ 7 ∈ members sC1 "room1"
      ∧ 3 < sC1.nextSubId)
    ∧ (7 ∈ members (handleMessage (.join "room2" "u1") sC1 cC1 7 0 0).server "room1"
      ∧ 7 ∈ members (handleMessage (.join "room2" "u1") sC1 cC1 7 0 0).server "room2"
      ∧ (3, mtopic "room1", 7)
          ∈ (handleMessage (.join "room2" "u1") sC1 cC1 7 0 0).server.subs
      ∧ (sC1.nextSubId, mtopic "room2", 7)
          ∈ (handleMessage (.join "room2" "u1") sC1 cC1 7 0 0).server.subs
      ∧ (handleMessage (.join "room2" "u1") sC1 cC1 7 0 0).conn.natsSub
          = some sC1.nextSubId
      ∧ (handleMessage (.join "room2" "u1") sC1 cC1 7 0 0).conn.natsSub ≠ some 3
      ∧ (handleMessage (.join "room2" "u1") sC1 cC1 7 0 0).conn.clientChannel
          = some "room2") :=
  ⟨⟨rfl, rfl, by decide, by decide, by decide⟩,
    second_join_accumulates sC1 cC1 7 0 0 "room1" "room2" "u1" 3 rfl rfl
      (by decide) (by decide) (by decide)⟩

/-! ### Claim C8 : parse failures are isolated -/

/-- C8: an inbound frame that fails to parse as a ControlMessage makes
`onMessage` reply to the originating connection only with an error event
carrying the failure text; the connection state is untouched (it stays
open) and no membership, subscription, persistence or publish side effect
occurs. -/
theorem parse_error_isolated (s : ServerState) (conn : Conn) (k now dbNow : Nat)
    (e : String) :
    (onMessage (.error e) s conn k now dbNow).replies = [.errorEv e]
    ∧ (onMessage (.error e) s conn k now dbNow).server = s
    ∧ (onMessage (.error e) s conn k now dbNow).conn = conn
    ∧ (onMessage (.error e) s conn k now dbNow).conn.isOpen = conn.isOpen
    ∧ (onMessage (.error e) s conn k now dbNow).publishes = []
    ∧ (onMessage (.error e) s conn k now dbNow).delayed = [] :=
  ⟨rfl, rfl, rfl, rfl, rfl, rfl⟩

/-! ### Claim C9 : a zero limit means the default of 50 -/

/-- C9: a `get-messages` whose `limit` field is 0 (falsy in
`msg.limit || 50`) is handled exactly like one with no `limit` at all:
the default of 50 is substituted, not a zero-row result. -/
theorem zero_limit_defaults (s : ServerState) (conn : Conn) (k now dbNow : Nat)
    (c : String) :
    handleMessage (.getMessages c (some 0)) s conn k now dbNow
      = handleMessage (.getMessages c none) s conn k now dbNow
    ∧ effLimit (some 0) = 50 ∧ effLimit none = 50 :=
  ⟨rfl, rfl, rfl⟩

/-! ### Claim C3 : delete-message always publishes -/

/-- C3: `delete-message` removes exactly the rows of the channel matching
the id (so it is a no-op on the store when nothing matches) and publishes
a `message-deleted` event carrying the id to the channel's topic
unconditionally; nothing else changes and nothing is sent to the
requester. -/
theorem delete_message_spec (s : ServerState) (conn : Conn) (k now dbNow : Nat)
    (c : String) (mid : Nat) :
    (handleMessage (.deleteMessage c mid) s conn k now dbNow).server.chat_messages
      = s.chat_messages.filter (fun r => !(r.id == mid && r.channel_name == c))
    ∧ (handleMessage (.deleteMessage c mid) s conn k now dbNow).publishes
      = [(mtopic c, .messageDeleted c mid)]
    ∧ ((s.chat_messages.all fun r => !(r.id == mid && r.channel_name == c)) = true →
        (handleMessage (.deleteMessage c mid) s conn k now dbNow).server.chat_messages
          = s.chat_messages)
    ∧ (handleMessage (.deleteMessage c mid) s conn k now dbNow).server.meeting_participants
      = s.meeting_participants
    ∧ (handleMessage (.deleteMessage c mid) s conn k now dbNow).server.channels = s.channels
    ∧ (handleMessage (.deleteMessage c mid) s conn k now dbNow).server.subs = s.subs
    ∧ (handleMessage (.deleteMessage c mid) s conn k now dbNow).replies = []
    ∧ (handleMessage (.deleteMessage c mid) s conn k now dbNow).delayed = []
    ∧ (handleMessage (.deleteMessage c mid) s conn k now dbNow).conn = conn := by
  refine ⟨rfl, rfl, ?_, rfl, rfl, rfl, rfl, rfl, rfl⟩
  intro hall
  show s.chat_messages.filter (fun r => !(r.id == mid && r.channel_name == c))
      = s.chat_messages
  exact List.filter_eq_self.mpr (fun r hr => List.all_eq_true.mp hall r hr)

theorem delete_message_spec_witness :
    ((s0.chat_messages.all fun r => !(r.id == 5 && r.channel_name == "room1")) = true →
      (handleMessage (.deleteMessage "room1" 5) s0 neverJoined 0 0 0).server.chat_messages
        = s0.chat_messages)
    ∧ (handleMessage (.deleteMessage "room1" 5) s0 neverJoined 0 0 0).publishes
      = [(mtopic "room1", .messageDeleted "room1" 5)] :=
  ⟨(delete_message_spec s0 neverJoined 0 0 0 "room1" 5).2.2.1,
    (delete_message_spec s0 neverJoined 0 0 0 "room1" 5).2.1⟩

/-! ### Claim C2 : update-status is an UPDATE, not an upsert -/

theorem lookupPart_map_keyed (f : PartRow → PartRow)
    (hkc : ∀ p, (f p).channel_name = p.channel_name)
    (hku : ∀ p, (f p).uid = p.uid)
    (l : List PartRow) (c u : String) :
    lookupPart (l.map fun p =>
        if p.channel_name == c && p.uid == u then f p else p) c u
      = (lookupPart l c u).map f := by
  induction l with
  | nil => rfl
  | cons p ps ih =>
    by_cases h : p.channel_name = c ∧ p.uid = u
    · have hb : (p.channel_name == c && p.uid == u) = true := by
        simp [h.1, h.2]
      simp only [List.map_cons, hb, if_true]
      simp only [lookupPart]
      rw [if_pos ⟨(hkc p).trans h.1, (hku p).trans h.2⟩, if_pos h]
      rfl
    · have hb : (p.channel_name == c && p.uid == u) = false := by
        rw [Bool.and_eq_false_iff]
        by_cases h1 : p.channel_name = c
        · right
          simp [beq_iff_eq]
          exact fun h2 => h ⟨h1, h2⟩
        · left
          simp [beq_iff_eq, h1]
      simp only [List.map_cons, hb]
      rw [show (if false = true then f p else p) = p from rfl]
      simp only [lookupPart]
      rw [if_neg h, if_neg h]
      exact ih

/-- C2 (counterexample): on an empty `meeting_participants` table, an
`update-status` for `("room1","u1")` leaves no record keyed by
`("room1","u1")` behind — the SQL `UPDATE` matches nothing and inserts
nothing, so the claimed upsert does not happen. -/
theorem update_status_no_upsert_cex :
    ¬ ∃ p ∈ (handleMessage (.updateStatus "room1" "u1" true false)
        s0 neverJoined 0 0 0).server.meeting_participants,
      p.channel_name = "room1" ∧ p.uid = "u1" := by decide

/-- C2 (amended): `update-status` rewrites every existing record keyed by
`(c, u)` to hold exactly the supplied flags (last-write-wins) but creates
none when no record exists — afterwards a record for `(c, u)` exists iff
one existed before — and publishes a `participant-status-changed` event
with the new flags to `c`'s topic. -/
theorem update_status_spec (s : ServerState) (conn : Conn) (k now dbNow : Nat)
    (c u : String) (cam mu : Bool) :
    (handleMessage (.updateStatus c u cam mu) s conn k now dbNow).server.meeting_participants
      = s.meeting_participants.map (fun p =>
          if p.channel_name == c && p.uid == u then
            { p with is_camera_off := cam, is_muted := mu }
          else p)
    ∧ lookupPart (handleMessage (.updateStatus c u cam mu)
          s conn k now dbNow).server.meeting_participants c u
      = (lookupPart s.meeting_participants c u).map
          (fun p => { p with is_camera_off := cam, is_muted := mu })
    ∧ (handleMessage (.updateStatus c u cam mu) s conn k now dbNow).publishes
      = [(mtopic c, .participantStatusChanged c u (some cam) (some mu))]
    ∧ (handleMessage (.updateStatus c u cam mu) s conn k now dbNow).server.chat_messages
      = s.chat_messages
    ∧ (handleMessage (.updateStatus c u cam mu) s conn k now dbNow).server.channels
      = s.channels
    ∧ (handleMessage (.updateStatus c u cam mu) s conn k now dbNow).server.subs = s.subs
    ∧ (handleMessage (.updateStatus c u cam mu) s conn k now dbNow).replies = []
    ∧ (handleMessage (.updateStatus c u cam mu) s conn k now dbNow).delayed = []
    ∧ (handleMessage (.updateStatus c u cam mu) s conn k now dbNow).conn = conn := by
  refine ⟨rfl, ?_, rfl, rfl, rfl, rfl, rfl, rfl, rfl⟩
  exact lookupPart_map_keyed
    (fun p => { p with is_camera_off := cam, is_muted := mu })
    (fun _ => rfl) (fun _ => rfl) s.meeting_participants c u

/-! ### Claim C10 : handlers have no joined-channel precondition -/

/-- C10: every action handler other than `join` — `get-messages`,
`send-message`, `update-status`, `delete-message`, `toggle-device` and
`end-meeting` — produces exactly the same store, publish, delayed-publish
and reply effects whatever the connection's join state: a never-joined
connection gets the full effect on whatever channel name the message
carries, and every publish goes to that channel's topic. -/
theorem store_actions_ignore_join_state (m : ControlMessage) (s : ServerState)
    (conn : Conn) (k now dbNow : Nat) (h : isStoreAction m = true) :
    handleMessage m s conn k now dbNow
      = { handleMessage m s neverJoined k now dbNow with conn := conn }
    ∧ (∀ pe ∈ (handleMessage m s conn k now dbNow).publishes, pe.1 = mtopic (chanOf m))
    ∧ (∀ pe ∈ (handleMessage m s conn k now dbNow).delayed, pe.1 = mtopic (chanOf m)) := by
  cases m with
  | join c u => simp [isStoreAction] at h
  | getMessages c lim =>
    exact ⟨rfl, by simp [handleMessage], by simp [handleMessage]⟩
  | sendMessage c u un tx =>
    exact ⟨rfl, by simp [handleMessage, chanOf], by simp [handleMessage]⟩
  | updateStatus c u cam mu =>
    exact ⟨rfl, by simp [handleMessage, chanOf], by simp [handleMessage]⟩
  | deleteMessage c mid =>
    exact ⟨rfl, by simp [handleMessage, chanOf], by simp [handleMessage]⟩
  | toggleDevice c d st tu =>
    exact ⟨rfl, by simp [handleMessage, chanOf], by simp [handleMessage, chanOf]⟩
  | endMeeting c u un =>
    exact ⟨rfl, by simp [handleMessage, chanOf], by simp [handleMessage]⟩

theorem store_actions_ignore_join_state_witness :
    isStoreAction (.deleteMessage "room1" 5) = true
    ∧ (handleMessage (.deleteMessage "room1" 5) sC1 cC1 7 0 0
        = { handleMessage (.deleteMessage "room1" 5) sC1 neverJoined 7 0 0 with
            conn := cC1 }
      ∧ (∀ pe ∈ (handleMessage (.deleteMessage "room1" 5) sC1 cC1 7 0 0).publishes,
          pe.1 = mtopic (chanOf (.deleteMessage "room1" 5)))
      ∧ (∀ pe ∈ (handleMessage (.deleteMessage "room1" 5) sC1 cC1 7 0 0).delayed,
          pe.1 = mtopic (chanOf (.deleteMessage "room1" 5)))) :=
  ⟨rfl, store_actions_ignore_join_state (.deleteMessage "room1" 5) sC1 cC1 7 0 0 rfl⟩

/-! ### Claim C7 : get-messages returns the newest N rows to self only -/

/-- C7: `get-messages` replies to the requesting connection only — no
publish, no broadcast, no state change — with at most N rows (N the
caller-supplied limit, 50 by default) of the requested channel, sorted by
creation time descending; every row it returns is at least as recent as
every row of the channel it leaves out. -/
theorem get_messages_spec (s : ServerState) (conn : Conn) (k now dbNow : Nat)
    (c : String) (lim : Option Nat) :
    (handleMessage (.getMessages c lim) s conn k now dbNow).replies
      = [.messages c (queryRows s c (effLimit lim))]
    ∧ (handleMessage (.getMessages c lim) s conn k now dbNow).server = s
    ∧ (handleMessage (.getMessages c lim) s conn k now dbNow).publishes = []
    ∧ (handleMessage (.getMessages c lim) s conn k now dbNow).delayed = []
    ∧ (handleMessage (.getMessages c lim) s conn k now dbNow).conn = conn
    ∧ (queryRows s c (effLimit lim)).length ≤ effLimit lim
    ∧ List.Sorted createdGE (queryRows s c (effLimit lim))
    ∧ (∀ m ∈ queryRows s c (effLimit lim), m.channel_name = c)
    ∧ (∀ m ∈ queryRows s c (effLimit lim), ∀ m2 ∈ channelRows s c,
        m2 ∉ queryRows s c (effLimit lim) → m2.created_at ≤ m.created_at) := by
  refine ⟨rfl, rfl, rfl, rfl, rfl, ?_, ?_, ?_, ?_⟩
  · exact List.length_take_le _ _
  · exact List.Pairwise.sublist (List.take_sublist _ _)
      (List.sorted_insertionSort createdGE (channelRows s c))
  · intro m hm
    have hmem : m ∈ sortDesc (channelRows s c) := List.mem_of_mem_take hm
    have hflt : m ∈ channelRows s c :=
      (List.perm_insertionSort createdGE (channelRows s c)).mem_iff.mp hmem
    have := List.of_mem_filter hflt
    exact beq_iff_eq.mp this
  · intro m hm m2 hm2 hnot
    have hm2sorted : m2 ∈ sortDesc (channelRows s c) :=
      (List.perm_insertionSort createdGE (channelRows s c)).mem_iff.mpr hm2
    have hsplit : (sortDesc (channelRows s c)).take (effLimit lim)
        ++ (sortDesc (channelRows s c)).drop (effLimit lim)
        = sortDesc (channelRows s c) := List.take_append_drop _ _
    have hdrop : m2 ∈ (sortDesc (channelRows s c)).drop (effLimit lim) := by
      rw [← hsplit] at hm2sorted
      rcases List.mem_append.mp hm2sorted with h | h
      · exact absurd h hnot
      · exact h
    have hpw : List.Pairwise createdGE
        ((sortDesc (channelRows s c)).take (effLimit lim)
          ++ (sortDesc (channelRows s c)).drop (effLimit lim)) := by
      rw [hsplit]
      exact List.sorted_insertionSort createdGE (channelRows s c)
    exact (List.pairwise_append.mp hpw).2.2 m hm m2 hdrop

/-! ### Claim C5 : toggle-device persists the inverted flag on the target
and publishes device-toggled strictly before participant-status-changed -/

/-- C5: for `device ∈ {camera, mic}`, `toggle-device` persists the
inverted flag `!state` on the record keyed by the channel and the *target*
participant (any record for `(c, targetUid)` gets the inverted flag; other
records are untouched), then publishes a `device-toggled` event and,
strictly after it, a `participant-status-changed` event for the target
carrying the inverted flag (for `device="mic"`, `state=true` it carries
`isMuted = false`); both events go to the channel's topic. -/
theorem toggle_device_spec (s : ServerState) (conn : Conn) (k now dbNow : Nat)
    (c d : String) (st : Bool) (tu : String)
    (hdev : d = "camera" ∨ d = "mic") :
    (handleMessage (.toggleDevice c d st tu) s conn k now dbNow).server.meeting_participants
      = s.meeting_participants.map (fun p =>
          if p.channel_name == c && p.uid == tu then
            (if d = "camera" then { p with is_camera_off := !st }
             else { p with is_muted := !st })
          else p)
    ∧ lookupPart (handleMessage (.toggleDevice c d st tu)
          s conn k now dbNow).server.meeting_participants c tu
      = (lookupPart s.meeting_participants c tu).map (fun p =>
          if d = "camera" then { p with is_camera_off := !st }
          else { p with is_muted := !st })
    ∧ (handleMessage (.toggleDevice c d st tu) s conn k now dbNow).publishes
        ++ (handleMessage (.toggleDevice c d st tu) s conn k now dbNow).delayed
      = [(mtopic c, .deviceToggled c tu d st),
         (mtopic c, .participantStatusChanged c tu
            (if d = "camera" then some (!st) else none)
            (if d = "mic" then some (!st) else none))]
    ∧ (handleMessage (.toggleDevice c d st tu) s conn k now dbNow).server.chat_messages
      = s.chat_messages
    ∧ (handleMessage (.toggleDevice c d st tu) s conn k now dbNow).replies = []
    ∧ (handleMessage (.toggleDevice c d st tu) s conn k now dbNow).conn = conn := by
  rcases hdev with h | h <;> subst h
  · refine ⟨?_, ?_, ?_, rfl, rfl, rfl⟩
    · simp [handleMessage]
    · have key := lookupPart_map_keyed
        (fun p => { p with is_camera_off := !st })
        (fun _ => rfl) (fun _ => rfl) s.meeting_participants c tu
      simpa [handleMessage] using key
    · simp [handleMessage]
  · refine ⟨?_, ?_, ?_, rfl, rfl, rfl⟩
    · simp [handleMessage]
    · have key := lookupPart_map_keyed
        (fun p => { p with is_muted := !st })
        (fun _ => rfl) (fun _ => rfl) s.meeting_participants c tu
      simpa [handleMessage] using key
    · simp [handleMessage]

theorem toggle_device_spec_witness :
    (("mic" : String) = "camera" ∨ ("mic" : String) = "mic")
    ∧ ((handleMessage (.toggleDevice "room1" "mic" true "u2")
          sC5 neverJoined 0 0 0).server.meeting_participants
        = sC5.meeting_participants.map (fun p =>
            if p.channel_name == "room1" && p.uid == "u2" then
              (if ("mic" : String) = "camera" then { p with is_camera_off := !true }
               else { p with is_muted := !true })
            else p)
      ∧ lookupPart (handleMessage (.toggleDevice "room1" "mic" true "u2")
            sC5 neverJoined 0 0 0).server.meeting_participants "room1" "u2"
        = (lookupPart sC5.meeting_participants "room1" "u2").map (fun p =>
            if ("mic" : String) = "camera" then { p with is_camera_off := !true }
            else { p with is_muted := !true })
      ∧ (handleMessage (.toggleDevice "room1" "mic" true "u2")
            sC5 neverJoined 0 0 0).publishes
          ++ (handleMessage (.toggleDevice "room1" "mic" true "u2")
            sC5 neverJoined 0 0 0).delayed
        = [(mtopic "room1", .deviceToggled "room1" "u2" "mic" true),
           (mtopic "room1", .participantStatusChanged "room1" "u2"
              (if ("mic" : String) = "camera" then some (!true) else none)
              (if ("mic" : String) = "mic" then some (!true) else none))]
      ∧ (handleMessage (.toggleDevice "room1" "mic" true "u2")
            sC5 neverJoined 0 0 0).server.chat_messages = sC5.chat_messages
      ∧ (handleMessage (.toggleDevice "room1" "mic" true "u2")
            sC5 neverJoined 0 0 0).replies = []
      ∧ (handleMessage (.toggleDevice "room1" "mic" true "u2")
            sC5 neverJoined 0 0 0).conn = neverJoined) :=
  ⟨Or.inr rfl,
    toggle_device_spec sC5 neverJoined 0 0 0 "room1" "mic" true "u2" (Or.inr rfl)⟩

/-! ### Claim C4 : send-message persists one row and broadcasts one event -/

/-- C4 (amended): `send-message` appends exactly one row to
`chat_messages` (id from the store's counter, creation time from the
store's clock `dbNow`) and publishes exactly one `new-message` event to
the channel's topic carrying a reconstructed record that agrees with the
persisted row on id, channel, uid, username and text but whose
`created_at` is the handler's own clock `now` (`new Date()`), which need
not equal the store-assigned creation time; under the membership ↔
subscription invariant, the event is forwarded to every open connection
currently joined to the channel, the sender included. -/
theorem send_message_spec (s : ServerState) (conns : List (Nat × Conn))
    (conn : Conn) (k now dbNow : Nat) (c u un txt : String)
    (hWF : WFInv s conns) :
    (handleMessage (.sendMessage c u un txt) s conn k now dbNow).server.chat_messages
      = s.chat_messages ++
        [{ id := s.nextId, channel_name := c, uid := u, username := un,
           message := txt, created_at := dbNow }]
    ∧ (handleMessage (.sendMessage c u un txt) s conn k now dbNow).publishes
      = [(mtopic c, .newMessage c
          { id := s.nextId, channel_name := c, uid := u, username := un,
            message := txt, created_at := now })]
    ∧ (handleMessage (.sendMessage c u un txt) s conn k now dbNow).replies = []
    ∧ (handleMessage (.sendMessage c u un txt) s conn k now dbNow).delayed = []
    ∧ (handleMessage (.sendMessage c u un txt) s conn k now dbNow).server.nextId
      = s.nextId + 1
    ∧ (handleMessage (.sendMessage c u un txt) s conn k now dbNow).conn = conn
    ∧ (∀ j cj, (j, cj) ∈ conns → j ∈ members s c → cj.isOpen = true →
        receivesB (handleMessage (.sendMessage c u un txt) s conn k now dbNow).server
          j cj.isOpen (mtopic c) = true) := by
  refine ⟨rfl, rfl, rfl, rfl, rfl, rfl, ?_⟩
  intro j cj hin hmem hop
  unfold members at hmem
  cases hl : lookupCh s.channels c with
  | none =>
    rw [hl] at hmem
    simp at hmem
  | some l =>
    rw [hl] at hmem
    simp only [Option.getD_some] at hmem
    have hcl : (c, l) ∈ s.channels := lookupCh_mem s.channels c l hl
    obtain ⟨x, hx, hx1, hx2⟩ := hWF (c, l) hcl j hmem (j, cj) hin rfl hop
    show (cj.isOpen && s.subs.any fun y => y.2.1 == mtopic c && y.2.2 == j) = true
    rw [hop, Bool.true_and, List.any_eq_true]
    exact ⟨x, hx, by simp [hx1, hx2]⟩

theorem send_message_spec_witness :
    WFInv sC1 [(7, cC1)]
    ∧ ((handleMessage (.sendMessage "room1" "u1" "Alice" "hi")
          sC1 cC1 7 12 34).server.chat_messages
        = sC1.chat_messages ++
          [{ id := sC1.nextId, channel_name := "room1", uid := "u1",
             username := "Alice", message := "hi", created_at := 34 }]
      ∧ (handleMessage (.sendMessage "room1" "u1" "Alice" "hi")
            sC1 cC1 7 12 34).publishes
        = [(mtopic "room1", .newMessage "room1"
            { id := sC1.nextId, channel_name := "room1", uid := "u1",
              username := "Alice", message := "hi", created_at := 12 })]
      ∧ (handleMessage (.sendMessage "room1" "u1" "Alice" "hi")
            sC1 cC1 7 12 34).replies = []
      ∧ (handleMessage (.sendMessage "room1" "u1" "Alice" "hi")
            sC1 cC1 7 12 34).delayed = []
      ∧ (handleMessage (.sendMessage "room1" "u1" "Alice" "hi")
            sC1 cC1 7 12 34).server.nextId = sC1.nextId + 1
      ∧ (handleMessage (.sendMessage "room1" "u1" "Alice" "hi")
            sC1 cC1 7 12 34).conn = cC1
      ∧ (∀ j cj, (j, cj) ∈ [(7, cC1)] → j ∈ members sC1 "room1" →
          cj.isOpen = true →
          receivesB (handleMessage (.sendMessage "room1" "u1" "Alice" "hi")
              sC1 cC1 7 12 34).server j cj.isOpen (mtopic "room1") = true)) :=
  ⟨by decide,
    send_message_spec sC1 [(7, cC1)] cC1 7 12 34 "room1" "u1" "Alice" "hi"
      (by decide)⟩

/-- C4 (counterexample): with the handler clock at 5 and the store clock
at 7, exactly one row is persisted (`created_at = 7`) and exactly one
`new-message` event is published, but the record the event carries has
`created_at = 5` — it is not the persisted record, refuting the original
claim's "carrying the full persisted record". -/
theorem send_message_clock_cex :
    (handleMessage (.sendMessage "room1" "u1" "Alice" "hi")
        s0 neverJoined 0 5 7).server.chat_messages
      = [{ id := 1, channel_name := "room1", uid := "u1",
           username := "Alice", message := "hi", created_at := 7 }]
    ∧ (handleMessage (.sendMessage "room1" "u1" "Alice" "hi")
        s0 neverJoined 0 5 7).publishes
      = [(mtopic "room1", .newMessage "room1"
          { id := 1, channel_name := "room1", uid := "u1",
            username := "Alice", message := "hi", created_at := 5 })]
    ∧ ({ id := 1, channel_name := "room1", uid := "u1", username := "Alice",
         message := "hi", created_at := 5 } : ChatRow)
      ≠ { id := 1, channel_name := "room1", uid := "u1", username := "Alice",
          message := "hi", created_at := 7 } := by decide
